import Mathlib

/-!
Verification of the Stripe–Telegram access manager (`index.js`, with `app.js`
as an earlier variant of the same program).  The program is embedded shallowly:
the PostgreSQL table `telegram_users` becomes an explicit list of rows, the
Telegram group becomes an explicit member list, and each Express/Telegraf
handler becomes a pure function from its inputs and the current state to a
response and the next state.  JavaScript truthiness of possibly-absent strings
is modelled with `Option String` plus an explicit emptiness test, and the
JavaScript string methods used by the program (`trim`, `includes`,
`startsWith`, `toLowerCase`) are modelled as structural functions on the
character list of a string.
-/

namespace StripeBot

/-- `String.prototype.trim`: drop whitespace from both ends. -/
def jsTrim (s : String) : String :=
  ⟨((s.data.dropWhile Char.isWhitespace).reverse.dropWhile Char.isWhitespace).reverse⟩

/-- `text.includes(c)` for a single-character needle. -/
def strContainsChar (s : String) (c : Char) : Bool :=
  s.data.any (fun x => x == c)

/-- `text.startsWith("/")`. -/
def strStartsWithSlash (s : String) : Bool :=
  match s.data with
  | [] => false
  | c :: _ => c == '/'

/-- `LOWER(...)` / `toLowerCase`, character by character. -/
def strToLower (s : String) : String :=
  ⟨s.data.map Char.toLower⟩

/-- Whether the first list occurs at the head of the second. -/
def listHasPrefix : List Char → List Char → Bool
  | [], _ => true
  | _ :: _, [] => false
  | a :: as, b :: bs => a == b && listHasPrefix as bs

/-- `haystack.includes(pat)`: substring occurrence. -/
def listHasSubstr (pat : List Char) : List Char → Bool
  | [] => listHasPrefix pat []
  | c :: cs => listHasPrefix pat (c :: cs) || listHasSubstr pat cs

/-- `s.includes(pat)` on strings. -/
def strIncludes (s pat : String) : Bool :=
  listHasSubstr pat.data s.data

/-- A row of the `telegram_users` table: `(telegram_id, email)`.  The schema
created by `initDb` has exactly these two columns. -/
abbrev Store := List (Int × String)

/-- Column list of the `telegram_users` table as created by `initDb`:
`CREATE TABLE IF NOT EXISTS telegram_users (telegram_id BIGINT PRIMARY KEY,
email TEXT UNIQUE NOT NULL)`. -/
def initDbCols : List String := ["telegram_id", "email"]

/-- JavaScript truthiness of a possibly-absent string (`undefined`, `null` and
`""` are falsy). -/
def jsTruthy : Option String → Bool
  | none => false
  | some s => !(s == "")

/-- Models `res.rows[0]?.email || null`: an empty string collapses to `null`. -/
def jsStrOrNull (o : Option String) : Option String :=
  if jsTruthy o then o else none

/-- `getEmailByUser`: `SELECT email FROM telegram_users WHERE telegram_id = $1`,
then `res.rows[0]?.email || null`. -/
def getEmailByUser (telegramId : Int) (db : Store) : Option String :=
  jsStrOrNull ((db.find? (fun r => r.1 == telegramId)).map (fun r => r.2))

/-- `getTelegramIdByEmail`: `SELECT telegram_id FROM telegram_users WHERE
LOWER(email) = LOWER($1)`, then `res.rows[0]?.telegram_id || null` (the id is
returned by the driver as a nonempty string, hence always truthy). -/
def getTelegramIdByEmail (email : String) (db : Store) : Option Int :=
  (db.find? (fun r => strToLower r.2 == strToLower email)).map (fun r => r.1)

/-- Failure of a store write, surfaced to the caller as a rejected query. -/
inductive DbError
  | uniqueEmailViolation
deriving DecidableEq

/-- `insertOrUpdateUser`: `INSERT INTO telegram_users (telegram_id, email)
VALUES ($1, $2) ON CONFLICT (telegram_id) DO UPDATE SET email = EXCLUDED.email`.
The `telegram_id` conflict is resolved by the update clause; a clash with the
`UNIQUE` index on `email` (another row already holding the same email string)
makes the query itself fail. -/
def insertOrUpdateUser (telegramId : Int) (email : String) (db : Store) :
    Except DbError Store :=
  if db.any (fun r => r.2 == email && !(r.1 == telegramId)) then
    .error .uniqueEmailViolation
  else if db.any (fun r => r.1 == telegramId) then
    .ok (db.map (fun r => if r.1 == telegramId then (r.1, email) else r))
  else
    .ok (db ++ [(telegramId, email)])

/-- Number of stored rows for one account id. -/
def rowCount (telegramId : Int) (db : Store) : Nat :=
  (db.filter (fun r => r.1 == telegramId)).length

/-- The replies the `bot.on("text")` handler can produce. -/
inductive Reply
  | couldNotIdentify
  | noReply
  | guidance
  | alreadyLinked (email : String)
  | linkedOk (email : String)
deriving DecidableEq

/-- The heuristic `text.includes("@") && text.includes(".")`. -/
def isEmail (text : String) : Bool :=
  strContainsChar text '@' && strContainsChar text '.'

/-- `bot.on("text")`: trim the message, ignore commands, require the email
heuristic, answer `already linked` when a link exists, otherwise upsert the
trimmed text and confirm.  A rejected store write aborts the handler before
the confirmation reply. -/
def botOnText (userId : Option Int) (msgText : String) (db : Store) :
    Except DbError (Reply × Store) :=
  match userId with
  | none => .ok (.couldNotIdentify, db)
  | some uid =>
    if strStartsWithSlash (jsTrim msgText) then .ok (.noReply, db)
    else if !(isEmail (jsTrim msgText)) then .ok (.guidance, db)
    else
      match getEmailByUser uid db with
      | some existing => .ok (.alreadyLinked existing, db)
      | none =>
        match insertOrUpdateUser uid (jsTrim msgText) db with
        | .error e => .error e
        | .ok db1 => .ok (.linkedOk (jsTrim msgText), db1)

example : botOnText (some 9) " a@b.com " [] = .ok (.linkedOk "a@b.com", [(9, "a@b.com")]) := rfl

example : botOnText (some 9) "a@b.com" [(7, "a@b.com")] = .error .uniqueEmailViolation := rfl

example : botOnText (some 1) "new@x.com" [(1, "a@b.com")] =
    .ok (.alreadyLinked "a@b.com", [(1, "a@b.com")]) := rfl

example : botOnText (some 1) "/a@b." [(1, "a@b.com")] = .ok (.noReply, [(1, "a@b.com")]) := rfl

example : getTelegramIdByEmail "user@example.com" [(5, "User@Example.com")] = some 5 := rfl

example : strIncludes "xx USER_NOT_PARTICIPANT yy" "USER_NOT_PARTICIPANT" = true := rfl

example : strIncludes "network timeout" "USER_NOT_PARTICIPANT" = false := rfl

/-! ### Membership Enforcer (`removeUserFromGroup`) -/

/-- The Telegram group: the accounts currently in it. -/
structure TgState where
  members : List Int
deriving DecidableEq

/-- Result of a Telegram API call as seen by the handler's `catch` block:
success, or an error carrying `err.response.description`. -/
inductive BanResult
  | ok
  | errDesc (d : String)
deriving DecidableEq

/-- `bot.telegram.banChatMember`: removes a member; for an account that is not
in the group the API answers with a `USER_NOT_PARTICIPANT` error. -/
def banChatMember (telegramId : Int) (tg : TgState) : BanResult × TgState :=
  if tg.members.contains telegramId then
    (.ok, ⟨tg.members.filter (fun m => !(m == telegramId))⟩)
  else
    (.errDesc "USER_NOT_PARTICIPANT", tg)

/-- `bot.telegram.unbanChatMember`: restores the account's ability to rejoin;
it does not change group membership. -/
def unbanChatMember (telegramId : Int) (tg : TgState) : TgState := tg

/-- Outcome classification of one revoke attempt. -/
inductive RevokeOutcome
  | removed
  | not_a_member
  | failed
deriving DecidableEq

/-- The `catch` block of `removeUserFromGroup`: a description containing
`USER_NOT_PARTICIPANT` is the benign case (`console.warn`), anything else is a
true failure (`console.error`). -/
def classifyBanError (desc : String) : RevokeOutcome :=
  if strIncludes desc "USER_NOT_PARTICIPANT" then .not_a_member else .failed

/-- Log severity of the line emitted for each outcome:
`console.log` = 0, `console.warn` = 1, `console.error` = 2. -/
def logSeverity : RevokeOutcome → Nat
  | .removed => 0
  | .not_a_member => 1
  | .failed => 2

/-- Telegram API calls issued by the enforcer, in order. -/
inductive ApiCall
  | ban (uid : Int)
  | unban (uid : Int)
deriving DecidableEq

/-- How many ban (remove) attempts a call trace contains. -/
def banAttempts (calls : List ApiCall) : Nat :=
  (calls.filter (fun c => match c with | .ban _ => true | .unban _ => false)).length

/-- `removeUserFromGroup`: ban then unban (a one-time kick); any error is
caught and classified, never rethrown, and nothing is retried. -/
def removeUserFromGroup (telegramId : Int) (tg : TgState) :
    RevokeOutcome × List ApiCall × TgState :=
  match banChatMember telegramId tg with
  | (.ok, tg1) => (.removed, [.ban telegramId, .unban telegramId], unbanChatMember telegramId tg1)
  | (.errDesc d, tg1) => (classifyBanError d, [.ban telegramId], tg1)

example : removeUserFromGroup 555 ⟨[555]⟩ = (.removed, [.ban 555, .unban 555], ⟨[]⟩) := rfl

example : removeUserFromGroup 555 ⟨[]⟩ = (.not_a_member, [.ban 555], ⟨[]⟩) := rfl

/-! ### Stripe webhook (`app.post("/webhook")`) -/

/-- `event.data.object`, with its two optional fields. -/
structure StripeEventObject where
  customer_email : Option String
  customer : Option String

/-- A parsed Stripe event: its `type` and `data.object` (an absent
`data.object` is the record with both fields `none`). -/
structure StripeEvent where
  type : String
  dataObject : StripeEventObject

/-- An inbound webhook request: whether `stripe.webhooks.constructEvent` would
accept its signature, whether `JSON.parse` of its body would succeed, and the
event either yields. -/
structure WebhookReq where
  sigValid : Bool
  parseValid : Bool
  event : StripeEvent

/-- The outbound Stripe API: `stripe.customers.retrieve(id).email`.  `none`
covers both a failed retrieve (caught and logged) and a customer without an
email. -/
structure StripeEnv where
  retrieveEmail : String → Option String

/-- `let email = dataObject.customer_email; if (!email && dataObject.customer)
email = (await stripe.customers.retrieve(dataObject.customer)).email`. -/
def resolveEmail (env : StripeEnv) (obj : StripeEventObject) : Option String :=
  if !(jsTruthy obj.customer_email) && jsTruthy obj.customer then
    env.retrieveEmail (obj.customer.getD "")
  else
    obj.customer_email

/-- The four revoking event types. -/
def revokingTypes : List String :=
  ["invoice.payment_failed", "customer.subscription.deleted",
   "charge.failed", "charge.dispute.created"]

/-- Observable result of one webhook delivery: HTTP status, how many Identity
Store reads happened, which accounts had a revoke issued, the revoke outcome
if any, and the final store and group states. -/
structure WebhookRes where
  status : Nat
  dbReads : Nat
  revokes : List Int
  outcome : Option RevokeOutcome
  db : Store
  tg : TgState
deriving DecidableEq

/-- Body of the webhook handler after signature verification / parsing:
resolve an email (ignore the event without one), look up the Telegram id
(ignore the event without a row), and revoke only for a revoking type. -/
def processStripeEvent (env : StripeEnv) (event : StripeEvent) (db : Store)
    (tg : TgState) : WebhookRes :=
  if !(jsTruthy (resolveEmail env event.dataObject)) then ⟨200, 0, [], none, db, tg⟩
  else
    match getTelegramIdByEmail ((resolveEmail env event.dataObject).getD "") db with
    | none => ⟨200, 1, [], none, db, tg⟩
    | some tid =>
      if revokingTypes.contains event.type then
        ⟨200, 1, [tid], some (removeUserFromGroup tid tg).1, db,
         (removeUserFromGroup tid tg).2.2⟩
      else ⟨200, 1, [], none, db, tg⟩

/-- `app.post("/webhook")`: with verification enabled a bad signature is
rejected with 400 before anything else; with verification disabled a body that
`JSON.parse` cannot read throws into the outer catch, which answers 500. -/
def appPostWebhook (verifySignature : Bool) (env : StripeEnv) (req : WebhookReq)
    (db : Store) (tg : TgState) : WebhookRes :=
  if verifySignature then
    if req.sigValid then processStripeEvent env req.event db tg
    else ⟨400, 0, [], none, db, tg⟩
  else
    if req.parseValid then processStripeEvent env req.event db tg
    else ⟨500, 0, [], none, db, tg⟩

/-- Whether the delivery passes the authentication/parse stage. -/
def eventAuthenticated (verifySignature : Bool) (req : WebhookReq) : Bool :=
  if verifySignature then req.sigValid else req.parseValid

example :
    appPostWebhook true ⟨fun _ => none⟩
      ⟨true, true, ⟨"invoice.payment_failed", ⟨some "a@b.com", none⟩⟩⟩
      [(555, "a@b.com")] ⟨[555]⟩ =
    ⟨200, 1, [555], some .removed, [(555, "a@b.com")], ⟨[]⟩⟩ := rfl

example :
    appPostWebhook true ⟨fun _ => none⟩
      ⟨true, true, ⟨"checkout.session.completed", ⟨some "a@b.com", none⟩⟩⟩
      [(555, "a@b.com")] ⟨[555]⟩ =
    ⟨200, 1, [], none, [(555, "a@b.com")], ⟨[555]⟩⟩ := rfl

/-! ### Admin dashboard (`app.get("/dashboard")`) -/

/-- The database as the dashboard sees it: the column list of `telegram_users`
together with its rows.  Every table this program itself creates has
`cols = initDbCols`; no statement in the program ever alters the schema. -/
structure DbTable where
  cols : List String
  rows : Store
deriving DecidableEq

/-- `SELECT * FROM telegram_users ORDER BY joined_at ...`: the query errors
whenever the `joined_at` column is absent from the schema, which holds in
every schema this program creates (`initDbCols`); in that case the rows carry
no timestamp at all, so there is no data the `ORDER BY` could sort by. -/
def selectAllOrderByJoinedAt (d : DbTable) : Except String Store :=
  if d.cols.contains "joined_at" then .ok d.rows
  else .error "column joined_at does not exist"

/-- Responses of the dashboard route. -/
inductive DashResponse
  | forbidden
  | page (rows : Store)
  | serverError
deriving DecidableEq

/-- `app.get("/dashboard")`: `if (token !== process.env.DASHBOARD_ACCESS_TOKEN)
return res.status(403)`, then render the `ORDER BY joined_at` query, with a
catch that answers 500.  Query parameter and configured token are both
possibly-`undefined` strings compared with strict equality. -/
def appGetDashboard (cfgToken : Option String) (qToken : Option String)
    (d : DbTable) : DashResponse :=
  if !(qToken == cfgToken) then .forbidden
  else
    match selectAllOrderByJoinedAt d with
    | .ok rows => .page rows
    | .error _ => .serverError

example : appGetDashboard (some "s") (some "x") ⟨initDbCols, []⟩ = .forbidden := rfl

example : appGetDashboard none none ⟨initDbCols, [(555, "a@b.com")]⟩ = .serverError := rfl

/-! ### Lemmas -/

/-- Every path of the event-processing body acknowledges 200. -/
theorem processStripeEvent_status (env : StripeEnv) (e : StripeEvent) (db : Store)
    (tg : TgState) : (processStripeEvent env e db tg).status = 200 := by
  unfold processStripeEvent
  cases hm : jsTruthy (resolveEmail env e.dataObject)
  · simp [hm]
  · simp only [hm, Bool.not_true, Bool.false_eq_true, if_false]
    cases hl : getTelegramIdByEmail ((resolveEmail env e.dataObject).getD "") db
    · rfl
    · split
      all_goals first | rfl | (split <;> rfl)

/-- An authenticated delivery runs the event-processing body. -/
theorem appPostWebhook_of_auth (v : Bool) (env : StripeEnv) (req : WebhookReq)
    (db : Store) (tg : TgState) (h : eventAuthenticated v req = true) :
    appPostWebhook v env req db tg = processStripeEvent env req.event db tg := by
  unfold appPostWebhook eventAuthenticated at *
  cases v <;> simp_all

/-- A predicate false on every element makes `find?` come up empty. -/
theorem find?_eq_none_of_all {α : Type} (p : α → Bool) (l : List α)
    (h : ∀ x ∈ l, p x = false) : l.find? p = none := by
  induction l with
  | nil => rfl
  | cons a as ih =>
    have ha : p a = false := h a (List.mem_cons_self a as)
    simp only [List.find?, ha]
    exact ih (fun x hx => h x (List.mem_cons_of_mem a hx))

/-- A predicate false on every element makes `any` false. -/
theorem any_eq_false_of_all {α : Type} (p : α → Bool) (l : List α)
    (h : ∀ x ∈ l, p x = false) : l.any p = false := by
  induction l with
  | nil => rfl
  | cons a as ih =>
    have ha : p a = false := h a (List.mem_cons_self a as)
    simp only [List.any, ha, Bool.false_or]
    exact ih (fun x hx => h x (List.mem_cons_of_mem a hx))

/-- `find?` skips a first block it comes up empty on. -/
theorem find?_append_left_none {α : Type} (p : α → Bool) (l1 l2 : List α)
    (h : l1.find? p = none) : (l1 ++ l2).find? p = l2.find? p := by
  induction l1 with
  | nil => rfl
  | cons a as ih =>
    cases hpa : p a
    · simp only [List.find?, hpa] at h
      simp only [List.cons_append, List.find?, hpa]
      exact ih h
    · simp only [List.find?, hpa] at h
      exact absurd h (by simp)

/-- A row count of zero means no row carries the id. -/
theorem id_absent_of_rowCount_zero (uid : Int) (db : Store)
    (h : rowCount uid db = 0) : ∀ r ∈ db, (r.1 == uid) = false := by
  unfold rowCount at h
  intro r hr
  by_contra hne
  have htrue : (r.1 == uid) = true := by
    cases hq : (r.1 == uid)
    · exact absurd hq hne
    · rfl
  have : r ∈ db.filter (fun r => r.1 == uid) := List.mem_filter.mpr ⟨hr, htrue⟩
  rw [List.length_eq_zero] at h
  rw [h] at this
  exact absurd this (List.not_mem_nil r)

/-! ### Claims -/

/-- Claim C2: once the event body is parsed and authenticated, the handler
acknowledges 200 regardless of email resolution, of the store lookup and of
the revoke outcome; a non-success status arises exactly when that stage
fails. -/
theorem ack_success_iff_authenticated (v : Bool) (env : StripeEnv)
    (req : WebhookReq) (db : Store) (tg : TgState) :
    (appPostWebhook v env req db tg).status = 200 ↔ eventAuthenticated v req = true := by
  constructor
  · intro h
    by_contra hna
    have hna' : eventAuthenticated v req = false := by
      cases hea : eventAuthenticated v req
      · rfl
      · exact absurd hea hna
    unfold appPostWebhook eventAuthenticated at *
    cases v <;> simp_all
  · intro h
    rw [appPostWebhook_of_auth v env req db tg h]
    exact processStripeEvent_status env req.event db tg

/-- Claim C1: for an authenticated event whose resolved email maps to a stored
Telegram id, a revoke is issued if and only if the event type is one of the
four revoking types; and an event of any other type never triggers a
membership-removal call, whatever resolves. -/
theorem revoke_iff_revoking_type (v : Bool) (env : StripeEnv) (req : WebhookReq)
    (db : Store) (tg : TgState) (tid : Int) :
    (eventAuthenticated v req = true →
      jsTruthy (resolveEmail env req.event.dataObject) = true →
      getTelegramIdByEmail ((resolveEmail env req.event.dataObject).getD "") db = some tid →
      ((appPostWebhook v env req db tg).revokes = [tid] ↔
        revokingTypes.contains req.event.type = true)) ∧
    (revokingTypes.contains req.event.type = false →
      (appPostWebhook v env req db tg).revokes = []) := by
  constructor
  · intro hauth hm hid
    rw [appPostWebhook_of_auth v env req db tg hauth]
    unfold processStripeEvent
    simp only [hm, Bool.not_true, Bool.false_eq_true, if_false, hid]
    by_cases htm : req.event.type ∈ revokingTypes <;> simp [htm]
  · intro ht
    by_cases hauth : eventAuthenticated v req = true
    · rw [appPostWebhook_of_auth v env req db tg hauth]
      unfold processStripeEvent
      cases hm : jsTruthy (resolveEmail env req.event.dataObject)
      · simp
      · simp only [hm, Bool.not_true, Bool.false_eq_true, if_false]
        cases hl : getTelegramIdByEmail ((resolveEmail env req.event.dataObject).getD "") db
        · rfl
        · have htm : req.event.type ∉ revokingTypes := by simpa using ht
          simp [htm]
    · unfold appPostWebhook eventAuthenticated at *
      cases v <;> simp_all

/-- Witness for C1 at the spec's two scenarios: a `invoice.payment_failed`
event for the linked email revokes account 555, and a
`checkout.session.completed` event revokes nobody. -/
theorem revoke_iff_revoking_type_witness :
    (appPostWebhook true ⟨fun _ => none⟩
      ⟨true, true, ⟨"invoice.payment_failed", ⟨some "a@b.com", none⟩⟩⟩
      [(555, "a@b.com")] ⟨[555]⟩).revokes = [555] ∧
    (appPostWebhook true ⟨fun _ => none⟩
      ⟨true, true, ⟨"checkout.session.completed", ⟨some "a@b.com", none⟩⟩⟩
      [(555, "a@b.com")] ⟨[555]⟩).revokes = [] := by
  constructor
  · exact ((revoke_iff_revoking_type true ⟨fun _ => none⟩
      ⟨true, true, ⟨"invoice.payment_failed", ⟨some "a@b.com", none⟩⟩⟩
      [(555, "a@b.com")] ⟨[555]⟩ 555).1 rfl rfl rfl).mpr rfl
  · exact (revoke_iff_revoking_type true ⟨fun _ => none⟩
      ⟨true, true, ⟨"checkout.session.completed", ⟨some "a@b.com", none⟩⟩⟩
      [(555, "a@b.com")] ⟨[555]⟩ 555).2 rfl

/-- Claim C3: with verification enabled, a delivery whose signature fails is
answered 400, with zero Identity Store reads, zero revoke calls, and the store
and group states untouched. -/
theorem invalid_signature_rejected (env : StripeEnv) (req : WebhookReq)
    (db : Store) (tg : TgState) (hsig : req.sigValid = false) :
    appPostWebhook true env req db tg = ⟨400, 0, [], none, db, tg⟩ := by
  unfold appPostWebhook
  simp [hsig]

/-- Witness for C3 at a concrete bad-signature delivery. -/
theorem invalid_signature_rejected_witness :
    appPostWebhook true ⟨fun _ => none⟩
      ⟨false, true, ⟨"invoice.payment_failed", ⟨some "a@b.com", none⟩⟩⟩
      [(555, "a@b.com")] ⟨[555]⟩ =
    ⟨400, 0, [], none, [(555, "a@b.com")], ⟨[555]⟩⟩ :=
  invalid_signature_rejected ⟨fun _ => none⟩
    ⟨false, true, ⟨"invoice.payment_failed", ⟨some "a@b.com", none⟩⟩⟩
    [(555, "a@b.com")] ⟨[555]⟩ rfl

/-- After a revoke attempt the account is no longer in the group. -/
theorem removeUserFromGroup_clears (tid : Int) (tg : TgState) :
    ((removeUserFromGroup tid tg).2.2).members.contains tid = false := by
  unfold removeUserFromGroup banChatMember unbanChatMember
  cases hc : tg.members.contains tid
  · simpa using hc
  · simp

/-- A revoke against an account outside the group meets the
`USER_NOT_PARTICIPANT` answer and classifies it as benign. -/
theorem removeUserFromGroup_not_member (tid : Int) (tg : TgState)
    (h : tg.members.contains tid = false) :
    removeUserFromGroup tid tg = (.not_a_member, [.ban tid], tg) := by
  have hcl : classifyBanError "USER_NOT_PARTICIPANT" = .not_a_member := by decide
  have hmem : tid ∉ tg.members := by simpa using h
  unfold removeUserFromGroup banChatMember
  simp [hmem, hcl]

/-- Counterexample to claim C4 as stated: re-delivering the identical revoking
event for a mapping whose account is initially in the group does not produce
the same revoke outcome both times — the first delivery's revoke yields
`removed`, the second delivery's yields `not_a_member`. -/
theorem redelivery_same_outcome_cex :
    (appPostWebhook true ⟨fun _ => none⟩
        ⟨true, true, ⟨"invoice.payment_failed", ⟨some "a@b.com", none⟩⟩⟩
        [(555, "a@b.com")] ⟨[555]⟩).outcome = some .removed ∧
    (appPostWebhook true ⟨fun _ => none⟩
        ⟨true, true, ⟨"invoice.payment_failed", ⟨some "a@b.com", none⟩⟩⟩
        [(555, "a@b.com")]
        (appPostWebhook true ⟨fun _ => none⟩
          ⟨true, true, ⟨"invoice.payment_failed", ⟨some "a@b.com", none⟩⟩⟩
          [(555, "a@b.com")] ⟨[555]⟩).tg).outcome = some .not_a_member ∧
    some RevokeOutcome.removed ≠ some RevokeOutcome.not_a_member :=
  ⟨rfl, rfl, by decide⟩

/-- Claim C4 (amended): re-delivering an identical revoking event against the
same stored mapping acknowledges success both times, leaves the store
untouched, and the second delivery never errors: its revoke meets an account
that is no longer a member and yields the benign `not_a_member` outcome rather
than a failure (so the revoke outcome may differ from the first delivery's
`removed`); the group state is unchanged by the re-delivery. -/
theorem redelivery_idempotent (v : Bool) (env : StripeEnv) (req : WebhookReq)
    (db : Store) (tg : TgState) (tid : Int)
    (hauth : eventAuthenticated v req = true)
    (hm : jsTruthy (resolveEmail env req.event.dataObject) = true)
    (hid : getTelegramIdByEmail ((resolveEmail env req.event.dataObject).getD "") db = some tid)
    (ht : revokingTypes.contains req.event.type = true) :
    (appPostWebhook v env req db tg).status = 200 ∧
    (appPostWebhook v env req db tg).db = db ∧
    (appPostWebhook v env req db (appPostWebhook v env req db tg).tg).status = 200 ∧
    (appPostWebhook v env req db (appPostWebhook v env req db tg).tg).outcome =
      some .not_a_member ∧
    (appPostWebhook v env req db (appPostWebhook v env req db tg).tg).tg =
      (appPostWebhook v env req db tg).tg := by
  have htm : req.event.type ∈ revokingTypes := by simpa using ht
  have hps : ∀ u : TgState, processStripeEvent env req.event db u =
      ⟨200, 1, [tid], some (removeUserFromGroup tid u).1, db,
        (removeUserFromGroup tid u).2.2⟩ := by
    intro u
    unfold processStripeEvent
    simp only [hm, Bool.not_true, Bool.false_eq_true, if_false, hid]
    simp [htm]
  have h1 : appPostWebhook v env req db tg = processStripeEvent env req.event db tg :=
    appPostWebhook_of_auth v env req db tg hauth
  have htg1 : (appPostWebhook v env req db tg).tg = (removeUserFromGroup tid tg).2.2 := by
    rw [h1, hps tg]
  have h2 : appPostWebhook v env req db (appPostWebhook v env req db tg).tg =
      processStripeEvent env req.event db (appPostWebhook v env req db tg).tg :=
    appPostWebhook_of_auth v env req db _ hauth
  have hrm : removeUserFromGroup tid (appPostWebhook v env req db tg).tg =
      (.not_a_member, [.ban tid], (appPostWebhook v env req db tg).tg) := by
    rw [htg1]
    exact removeUserFromGroup_not_member tid _ (removeUserFromGroup_clears tid tg)
  refine ⟨?_, ?_, ?_, ?_, ?_⟩
  · rw [h1, hps tg]
  · rw [h1, hps tg]
  · rw [h2, hps ((appPostWebhook v env req db tg).tg)]
  · rw [h2, hps ((appPostWebhook v env req db tg).tg), hrm]
  · rw [h2, hps ((appPostWebhook v env req db tg).tg), hrm]

/-- Witness for the amended C4 at the spec's scenario: the
`invoice.payment_failed` event for the linked email of member 555, delivered
twice. -/
theorem redelivery_idempotent_witness :
    (appPostWebhook true ⟨fun _ => none⟩
        ⟨true, true, ⟨"invoice.payment_failed", ⟨some "a@b.com", none⟩⟩⟩
        [(555, "a@b.com")] ⟨[555]⟩).status = 200 ∧
    (appPostWebhook true ⟨fun _ => none⟩
        ⟨true, true, ⟨"invoice.payment_failed", ⟨some "a@b.com", none⟩⟩⟩
        [(555, "a@b.com")] ⟨[555]⟩).db = [(555, "a@b.com")] ∧
    (appPostWebhook true ⟨fun _ => none⟩
        ⟨true, true, ⟨"invoice.payment_failed", ⟨some "a@b.com", none⟩⟩⟩
        [(555, "a@b.com")]
        (appPostWebhook true ⟨fun _ => none⟩
          ⟨true, true, ⟨"invoice.payment_failed", ⟨some "a@b.com", none⟩⟩⟩
          [(555, "a@b.com")] ⟨[555]⟩).tg).status = 200 ∧
    (appPostWebhook true ⟨fun _ => none⟩
        ⟨true, true, ⟨"invoice.payment_failed", ⟨some "a@b.com", none⟩⟩⟩
        [(555, "a@b.com")]
        (appPostWebhook true ⟨fun _ => none⟩
          ⟨true, true, ⟨"invoice.payment_failed", ⟨some "a@b.com", none⟩⟩⟩
          [(555, "a@b.com")] ⟨[555]⟩).tg).outcome = some .not_a_member ∧
    (appPostWebhook true ⟨fun _ => none⟩
        ⟨true, true, ⟨"invoice.payment_failed", ⟨some "a@b.com", none⟩⟩⟩
        [(555, "a@b.com")]
        (appPostWebhook true ⟨fun _ => none⟩
          ⟨true, true, ⟨"invoice.payment_failed", ⟨some "a@b.com", none⟩⟩⟩
          [(555, "a@b.com")] ⟨[555]⟩).tg).tg =
      (appPostWebhook true ⟨fun _ => none⟩
        ⟨true, true, ⟨"invoice.payment_failed", ⟨some "a@b.com", none⟩⟩⟩
        [(555, "a@b.com")] ⟨[555]⟩).tg :=
  redelivery_idempotent true ⟨fun _ => none⟩
    ⟨true, true, ⟨"invoice.payment_failed", ⟨some "a@b.com", none⟩⟩⟩
    [(555, "a@b.com")] ⟨[555]⟩ 555 rfl rfl rfl rfl

/-- Claim C5: a `USER_NOT_PARTICIPANT` response is classified as the benign
`not_a_member`, any other failing response as `failed`; the two are distinct,
the benign one is logged at strictly lower severity, and a revoke issues
exactly one removal attempt — neither outcome is retried. -/
theorem revoke_outcome_classification (d : String) (tid : Int) (tg : TgState) :
    (strIncludes d "USER_NOT_PARTICIPANT" = true →
      classifyBanError d = .not_a_member) ∧
    (strIncludes d "USER_NOT_PARTICIPANT" = false →
      classifyBanError d = .failed) ∧
    RevokeOutcome.not_a_member ≠ RevokeOutcome.failed ∧
    logSeverity .not_a_member < logSeverity .failed ∧
    banAttempts (removeUserFromGroup tid tg).2.1 = 1 := by
  refine ⟨?_, ?_, by decide, by decide, ?_⟩
  · intro h
    unfold classifyBanError
    simp [h]
  · intro h
    unfold classifyBanError
    simp [h]
  · unfold removeUserFromGroup banChatMember
    cases hc : tg.members.contains tid <;> simp [banAttempts]

/-- Witness for C5: a transcript carrying `USER_NOT_PARTICIPANT` is benign, a
permission error is a failure, and the concrete revoke issues one removal
attempt. -/
theorem revoke_outcome_classification_witness :
    classifyBanError "Bad Request: USER_NOT_PARTICIPANT" = .not_a_member ∧
    classifyBanError "Bad Request: not enough rights" = .failed ∧
    banAttempts (removeUserFromGroup 555 ⟨[]⟩).2.1 = 1 :=
  ⟨(revoke_outcome_classification "Bad Request: USER_NOT_PARTICIPANT" 555 ⟨[]⟩).1 rfl,
   (revoke_outcome_classification "Bad Request: not enough rights" 555 ⟨[]⟩).2.1 rfl,
   (revoke_outcome_classification "Bad Request: not enough rights" 555 ⟨[]⟩).2.2.2.2⟩

/-- Counterexample to claim C6 as stated: account 9 is previously unlinked and
sends the qualifying text `a@b.com`, but another account already owns that
exact email, so the unique-email index rejects the write — no link is created
and the handler aborts before any confirmation reply. -/
theorem first_link_cex :
    rowCount 9 [(7, "a@b.com")] = 0 ∧
    botOnText (some 9) "a@b.com" [(7, "a@b.com")] = .error .uniqueEmailViolation :=
  ⟨rfl, rfl⟩

/-- The email heuristic rules out the empty string. -/
theorem isEmail_ne_empty (t : String) (h : isEmail t = true) : (t == "") = false := by
  cases hq : (t == "")
  · rfl
  · exfalso
    have ht : t = "" := eq_of_beq hq
    rw [ht] at h
    exact absurd h (by decide)

/-- Claim C6 (amended): for a previously unlinked account whose qualifying
text is not yet stored as any other account's email, one non-command message
containing `@` and `.` creates exactly one stored row and the confirmation
reply; a second qualifying message from the same account leaves the row count
at 1, preserves the originally stored email, and gets the already-linked
reply.  (When another account already owns the exact email, the unique-email
index makes the write fail and neither link nor confirmation is produced.) -/
theorem first_link_then_already_linked (uid : Int) (msg : String) (db : Store)
    (hunlinked : rowCount uid db = 0)
    (hfree : ∀ r ∈ db, (r.2 == jsTrim msg) = false)
    (hslash : strStartsWithSlash (jsTrim msg) = false)
    (hheur : isEmail (jsTrim msg) = true) :
    botOnText (some uid) msg db =
      .ok (.linkedOk (jsTrim msg), db ++ [(uid, jsTrim msg)]) ∧
    rowCount uid (db ++ [(uid, jsTrim msg)]) = 1 ∧
    getEmailByUser uid (db ++ [(uid, jsTrim msg)]) = some (jsTrim msg) ∧
    (∀ msg2 : String, strStartsWithSlash (jsTrim msg2) = false →
      isEmail (jsTrim msg2) = true →
      botOnText (some uid) msg2 (db ++ [(uid, jsTrim msg)]) =
        .ok (.alreadyLinked (jsTrim msg), db ++ [(uid, jsTrim msg)])) := by
  have hids : ∀ r ∈ db, (r.1 == uid) = false := id_absent_of_rowCount_zero uid db hunlinked
  have hfind : db.find? (fun r => r.1 == uid) = none := find?_eq_none_of_all _ _ hids
  have hge : getEmailByUser uid db = none := by
    unfold getEmailByUser
    rw [hfind]
    rfl
  have hne : (jsTrim msg == "") = false := isEmail_ne_empty _ hheur
  have hupsert : insertOrUpdateUser uid (jsTrim msg) db =
      .ok (db ++ [(uid, jsTrim msg)]) := by
    have h1 : db.any (fun r => r.2 == jsTrim msg && !(r.1 == uid)) = false :=
      any_eq_false_of_all _ _ (fun r hr => by rw [hfree r hr]; rfl)
    have h2 : db.any (fun r => r.1 == uid) = false := any_eq_false_of_all _ _ hids
    unfold insertOrUpdateUser
    rw [h1, h2]
    rfl
  have hg1 : getEmailByUser uid (db ++ [(uid, jsTrim msg)]) = some (jsTrim msg) := by
    unfold getEmailByUser
    rw [find?_append_left_none _ _ _ hfind]
    simp [List.find?, jsStrOrNull, jsTruthy, hne]
  refine ⟨?_, ?_, hg1, ?_⟩
  · unfold botOnText
    dsimp only
    rw [hslash, hheur, hge, hupsert]
    rfl
  · unfold rowCount
    rw [List.filter_append]
    have hnilf : db.filter (fun r => r.1 == uid) = [] := by
      rw [← List.length_eq_zero]
      exact hunlinked
    rw [hnilf]
    simp
  · intro msg2 hslash2 hheur2
    unfold botOnText
    dsimp only
    rw [hslash2, hheur2, hg1]
    rfl

/-- Witness for the amended C6: the unlinked account 9 links ` a@b.com ` in an
empty store, and a second email-like message answers already-linked with the
stored email intact. -/
theorem first_link_then_already_linked_witness :
    botOnText (some 9) " a@b.com " [] = .ok (.linkedOk "a@b.com", [(9, "a@b.com")]) ∧
    rowCount 9 [(9, "a@b.com")] = 1 ∧
    getEmailByUser 9 [(9, "a@b.com")] = some "a@b.com" ∧
    botOnText (some 9) "other@mail.net" [(9, "a@b.com")] =
      .ok (.alreadyLinked "a@b.com", [(9, "a@b.com")]) := by
  have h := first_link_then_already_linked 9 " a@b.com " []
    rfl (by intro r hr; exact absurd hr (List.not_mem_nil r)) rfl rfl
  exact ⟨h.1, h.2.1, h.2.2.1, h.2.2.2 "other@mail.net" rfl rfl⟩

/-- A successful text-handler run either leaves the store alone or commits one
upsert of the trimmed text, and only for an email-like non-command from a
previously unlinked account. -/
theorem botOnText_cases (userId : Option Int) (m : String) (db : Store)
    (rep : Reply) (db' : Store) (h : botOnText userId m db = .ok (rep, db')) :
    db' = db ∨
    (∃ uid, userId = some uid ∧ strStartsWithSlash (jsTrim m) = false ∧
      isEmail (jsTrim m) = true ∧ getEmailByUser uid db = none ∧
      insertOrUpdateUser uid (jsTrim m) db = .ok db') := by
  cases userId with
  | none =>
    left
    unfold botOnText at h
    simp only [Except.ok.injEq, Prod.mk.injEq] at h
    exact h.2.symm
  | some uid =>
    unfold botOnText at h
    dsimp only at h
    cases hs : strStartsWithSlash (jsTrim m)
    · rw [hs] at h
      cases hi : isEmail (jsTrim m)
      · rw [hi] at h
        simp only [Bool.false_eq_true, if_false, Bool.not_false, if_true,
          Except.ok.injEq, Prod.mk.injEq] at h
        left
        exact h.2.symm
      · rw [hi] at h
        simp only [Bool.false_eq_true, if_false, Bool.not_true] at h
        cases hg : getEmailByUser uid db
        · rw [hg] at h
          cases hins : insertOrUpdateUser uid (jsTrim m) db
          · rw [hins] at h
            exact absurd h (by simp)
          · rw [hins] at h
            simp only [Except.ok.injEq, Prod.mk.injEq] at h
            right
            exact ⟨uid, rfl, rfl, rfl, hg, by rw [hins, h.2]⟩
        · rw [hg] at h
          simp only [Except.ok.injEq, Prod.mk.injEq] at h
          left
          exact h.2.symm
    · rw [hs] at h
      simp only [if_true, Except.ok.injEq, Prod.mk.injEq] at h
      left
      exact h.2.symm

/-- A successful upsert keeps a row for every account id it found. -/
theorem insertOrUpdateUser_keeps_ids (tid : Int) (em : String) (db db' : Store)
    (h : insertOrUpdateUser tid em db = .ok db') :
    ∀ p ∈ db, ∃ q ∈ db', q.1 = p.1 := by
  unfold insertOrUpdateUser at h
  split at h
  · exact absurd h (by simp)
  · split at h
    · simp only [Except.ok.injEq] at h
      subst h
      intro p hp
      refine ⟨if (p.1 == tid) = true then (p.1, em) else p, ?_, ?_⟩
      · refine List.mem_map.mpr ⟨p, hp, ?_⟩
        by_cases hq : (p.1 == tid) = true <;> simp [hq]
      · by_cases hq : (p.1 == tid) = true <;> simp [hq]
    · simp only [Except.ok.injEq] at h
      subst h
      intro p hp
      exact ⟨p, List.mem_append_left _ hp, rfl⟩

/-- Every row a successful upsert leaves behind was already stored or carries
the upserted email. -/
theorem insertOrUpdateUser_rows (tid : Int) (em : String) (db db' : Store)
    (h : insertOrUpdateUser tid em db = .ok db') :
    ∀ q ∈ db', q ∈ db ∨ q.2 = em := by
  unfold insertOrUpdateUser at h
  split at h
  · exact absurd h (by simp)
  · split at h
    · simp only [Except.ok.injEq] at h
      subst h
      intro q hq
      obtain ⟨r, hr, hf⟩ := List.mem_map.mp hq
      by_cases hrt : (r.1 == tid) = true
      · right
        rw [← hf]
        simp [hrt]
      · left
        rw [← hf]
        simpa [hrt] using hr
    · simp only [Except.ok.injEq] at h
      subst h
      intro q hq
      rcases List.mem_append.mp hq with hq1 | hq2
      · left
        exact hq1
      · right
        simp only [List.mem_singleton] at hq2
        rw [hq2]

/-- Counterexample to claim C7 as stated: account 1 is linked to `a@b.com` and
sends the new valid email `new@x.com`, but the handler answers already-linked
and leaves the store unchanged — the stored email is not replaced. -/
theorem relink_replaces_email_cex :
    botOnText (some 1) "new@x.com" [(1, "a@b.com")] =
      .ok (.alreadyLinked "a@b.com", [(1, "a@b.com")]) ∧
    getEmailByUser 1 [(1, "a@b.com")] ≠ some "new@x.com" :=
  ⟨rfl, by decide⟩

/-- Claim C7 (amended): for an already-linked account any message — including
a new valid email — leaves the store exactly as it was, so the stored email is
preserved rather than replaced (the flow answers already-linked before ever
reaching the upsert); and no handler run ever deletes a link: every account id
stored before a successful run is still stored after it. -/
theorem linked_account_email_preserved (uid : Int) (msg : String) (db : Store)
    (e : String) (userId : Option Int) (msg2 : String) :
    (getEmailByUser uid db = some e →
      ∃ rep, botOnText (some uid) msg db = .ok (rep, db)) ∧
    (∀ rep db', botOnText userId msg2 db = .ok (rep, db') →
      ∀ p ∈ db, ∃ q ∈ db', q.1 = p.1) := by
  constructor
  · intro h
    cases hs : strStartsWithSlash (jsTrim msg)
    · cases hi : isEmail (jsTrim msg)
      · refine ⟨.guidance, ?_⟩
        unfold botOnText
        dsimp only
        rw [hs, hi]
        rfl
      · refine ⟨.alreadyLinked e, ?_⟩
        unfold botOnText
        dsimp only
        rw [hs, hi, h]
        rfl
    · refine ⟨.noReply, ?_⟩
      unfold botOnText
      dsimp only
      rw [hs]
      rfl
  · intro rep db' hok p hp
    rcases botOnText_cases userId msg2 db rep db' hok with hsame | ⟨u, -, -, -, -, hins⟩
    · subst hsame
      exact ⟨p, hp, rfl⟩
    · exact insertOrUpdateUser_keeps_ids u (jsTrim msg2) db db' hins p hp

/-- Witness for the amended C7: the linked account 1 keeps its stored email
after sending a new valid email, and its row survives the run. -/
theorem linked_account_email_preserved_witness :
    (∃ rep, botOnText (some 1) "new@x.com" [(1, "a@b.com")] =
      .ok (rep, [(1, "a@b.com")])) ∧
    (∃ q ∈ ([(1, "a@b.com")] : Store), q.1 = 1) := by
  have h := linked_account_email_preserved 1 "new@x.com" [(1, "a@b.com")] "a@b.com"
    (some 1) "new@x.com"
  refine ⟨h.1 rfl, ?_⟩
  have h2 := h.2 (.alreadyLinked "a@b.com") [(1, "a@b.com")] rfl (1, "a@b.com") (by simp)
  exact h2

/-- Stores reachable from the empty table through successful runs of the
messaging text handler. -/
inductive Reachable : Store → Prop
  | empty : Reachable []
  | step (userId : Option Int) (m : String) (db : Store) (rep : Reply) (db' : Store) :
      Reachable db → botOnText userId m db = .ok (rep, db') → Reachable db'

/-- Claim C10: every email the text handler ever stores is the trimmed text of
some inbound message, contains both `@` and `.`, and does not start with `/` —
command messages are never stored even when they look like an email. -/
theorem stored_email_invariant (db : Store) (h : Reachable db) :
    ∀ p ∈ db, strContainsChar p.2 '@' = true ∧ strContainsChar p.2 '.' = true ∧
      strStartsWithSlash p.2 = false ∧ ∃ m, p.2 = jsTrim m := by
  induction h with
  | empty =>
    intro p hp
    exact absurd hp (List.not_mem_nil p)
  | step userId m db rep db' hreach hok ih =>
    intro p hp
    rcases botOnText_cases userId m db rep db' hok with hsame | ⟨u, -, hs, hi, -, hins⟩
    · subst hsame
      exact ih p hp
    · rcases insertOrUpdateUser_rows u (jsTrim m) db db' hins p hp with hin | hemail
      · exact ih p hin
      · rw [hemail]
        unfold isEmail at hi
        rw [Bool.and_eq_true] at hi
        obtain ⟨h1, h2⟩ := hi
        exact ⟨h1, h2, hs, ⟨m, rfl⟩⟩

/-- Witness for C10 on the store reached by linking ` a@b.com ` from empty:
its one stored email is trimmed, email-like and not a command. -/
theorem stored_email_invariant_witness :
    strContainsChar "a@b.com" '@' = true ∧ strContainsChar "a@b.com" '.' = true ∧
      strStartsWithSlash "a@b.com" = false ∧ ∃ m, "a@b.com" = jsTrim m := by
  have hr : Reachable [(9, "a@b.com")] :=
    Reachable.step (some 9) " a@b.com " [] (.linkedOk "a@b.com") [(9, "a@b.com")]
      Reachable.empty rfl
  exact stored_email_invariant [(9, "a@b.com")] hr (9, "a@b.com") (by simp)

/-- Claim C8 evaluated on the code: the schema `initDb` creates carries no
`joined_at` (nor any `linked_at`) column, so stored links have no creation
timestamp, and an admin request that passes the token gate is answered with a
server error by the `ORDER BY joined_at` query instead of the ordered
snapshot. -/
theorem dashboard_order_column_missing (tok : Option String) (rows : Store) :
    initDbCols.contains "joined_at" = false ∧
    appGetDashboard tok tok ⟨initDbCols, rows⟩ = .serverError := by
  have hsel : selectAllOrderByJoinedAt ⟨initDbCols, rows⟩ =
      .error "column joined_at does not exist" := rfl
  refine ⟨by decide, ?_⟩
  unfold appGetDashboard
  simp [hsel]

/-- Counterexample to claim C9 as stated: with the admin token unconfigured
and the token parameter omitted the gate does pass, but the full Identity
Store snapshot is not served — on the schema this program's own `initDb`
creates, the handler answers a server error instead of the data page. -/
theorem dashboard_unconfigured_cex :
    appGetDashboard none none ⟨initDbCols, [(555, "a@b.com")]⟩ ≠ .forbidden ∧
    appGetDashboard none none ⟨initDbCols, [(555, "a@b.com")]⟩ ≠
      .page [(555, "a@b.com")] ∧
    appGetDashboard none none ⟨initDbCols, [(555, "a@b.com")]⟩ = .serverError := by
  refine ⟨by decide, by decide, rfl⟩

/-- Claim C9 (amended): the dashboard rejects with forbidden exactly when the
token query parameter differs from the configured admin token under strict
equality — so with both unset the gate passes — and a gate-passing request is
handed to the snapshot query, which on the schema `initDb` creates fails on
the missing `joined_at` column and yields a server error instead of the
snapshot. -/
theorem dashboard_gate (cfgToken qToken : Option String) (d : DbTable) :
    (appGetDashboard cfgToken qToken d = .forbidden ↔ ¬(qToken = cfgToken)) ∧
    (qToken = cfgToken → d.cols = initDbCols →
      appGetDashboard cfgToken qToken d = .serverError) := by
  constructor
  · constructor
    · intro h heq
      subst heq
      unfold appGetDashboard at h
      rw [beq_self_eq_true] at h
      cases hsel : selectAllOrderByJoinedAt d
      · rw [hsel] at h
        exact absurd h (by simp)
      · rw [hsel] at h
        exact absurd h (by simp)
    · intro hne
      unfold appGetDashboard
      have hb : (qToken == cfgToken) = false := by
        cases hq : qToken == cfgToken
        · rfl
        · exact absurd (eq_of_beq hq) hne
      rw [hb]
      rfl
  · intro heq hcols
    subst heq
    unfold appGetDashboard
    rw [beq_self_eq_true]
    have hsel : selectAllOrderByJoinedAt d = .error "column joined_at does not exist" := by
      unfold selectAllOrderByJoinedAt
      rw [hcols]
      rfl
    rw [hsel]
    rfl

/-- Witness for the amended C9: a wrong token is forbidden, and the
unconfigured-and-omitted pair passes the gate into the failing query. -/
theorem dashboard_gate_witness :
    appGetDashboard (some "s") (some "x") ⟨initDbCols, []⟩ = .forbidden ∧
    appGetDashboard none none ⟨initDbCols, [(7, "e@f.g")]⟩ = .serverError :=
  ⟨(dashboard_gate (some "s") (some "x") ⟨initDbCols, []⟩).1.mpr (by decide),
   (dashboard_gate none none ⟨initDbCols, [(7, "e@f.g")]⟩).2 rfl rfl⟩

end StripeBot
